import Mathlib

/-!
Shallow embedding of `src/main.py` (rpi_tray_widget), a Qt tray applet that
supervises a single user-level systemd unit.

The pure fragments of the Python code are translated into Lean functions.
The Qt side effects performed by each method (icon, tooltip, menu updates,
checkbox updates, signal emission, notifications, dialogs) are made explicit
as an emitted event list, and the results of the external `systemctl` /
`journalctl` invocations are passed in as explicit `CompletedProcess` values,
so that every method becomes a function from its inputs to a new tray state
plus the list of events it produced.
-/

namespace RpiTray

/-- Result of `subprocess.run(..., stdout=PIPE, stderr=PIPE, text=True)`:
exit code, captured standard output and captured standard error. -/
structure CompletedProcess where
  returncode : Int
  stdout : String
  stderr : String
deriving Repr, DecidableEq

/-- Whitespace characters removed by Python's `str.strip()` (ASCII range:
space, tab, newline, carriage return, vertical tab, form feed). -/
def isPySpace (c : Char) : Bool :=
  c = ' ' || c = '\t' || c = '\n' || c = '\r' || c = Char.ofNat 11 || c = Char.ofNat 12

/-- Python's `str.strip()`: drop leading and trailing whitespace. -/
def pyStrip (s : String) : String :=
  String.mk (((s.data.dropWhile isPySpace).reverse.dropWhile isPySpace).reverse)

/-- Characters `shlex.quote` treats as safe (Python's ASCII regex of unsafe
characters is the complement of word characters plus `@ % + = : , . -` and
the forward slash): ASCII alphanumerics, underscore and the listed
punctuation. -/
def isShlexSafeChar (c : Char) : Bool :=
  c.isAlpha || c.isDigit || c = '_' || c = '@' || c = '%' || c = '+' || c = '=' ||
  c = ':' || c = ',' || c = '.' || c = '/' || c = '-'

/-- Python's `shlex.quote`: the empty string becomes `''`; a string of safe
characters is returned unchanged; anything else is wrapped in single quotes
with each embedded single quote rewritten to the five-character sequence
quote, double-quote, quote, double-quote, quote. -/
def shlexQuote (s : String) : String :=
  if s = "" then "\x27\x27"
  else if s.data.all isShlexSafeChar then s
  else "\x27" ++
    String.mk ((s.data.map (fun c =>
      if c = '\x27' then ['\x27', '"', '\x27', '"', '\x27'] else [c])).flatten) ++ "\x27"

/-- Token-separating whitespace of `shlex` (its `whitespace` attribute). -/
def isShlexSpace (c : Char) : Bool :=
  c = ' ' || c = '\t' || c = '\r' || c = '\n'

/-- Lexer mode of the POSIX `shlex` splitter: outside quotes, inside single
quotes, or inside double quotes. -/
inductive ShMode where
  | norm
  | single
  | double
deriving Repr, DecidableEq

/-- Append a pending token (if any) in front of an already-produced token
list. -/
def flushTok (cur : Option (List Char)) (acc : List String) : List String :=
  match cur with
  | none => acc
  | some t => String.mk t :: acc

/-- Core of Python's `shlex.split` in POSIX mode (`posix=True`,
`comments=False`): whitespace separates tokens; single quotes protect
everything up to the closing quote; double quotes protect everything except
backslash-escaped backslashes and double quotes; outside quotes a backslash
escapes the next character; adjacent quoted and unquoted pieces concatenate
into one token, and empty quotes yield an empty token. -/
def shlexSplitAux : ShMode → Option (List Char) → List Char → List String
  | ShMode.norm, cur, [] => flushTok cur []
  | ShMode.norm, cur, c :: rest =>
    if isShlexSpace c then flushTok cur (shlexSplitAux ShMode.norm none rest)
    else if c = '\x27' then shlexSplitAux ShMode.single (some (cur.getD [])) rest
    else if c = '"' then shlexSplitAux ShMode.double (some (cur.getD [])) rest
    else if c = '\\' then
      match rest with
      | [] => flushTok (some (cur.getD [])) []
      | d :: rest2 => shlexSplitAux ShMode.norm (some (cur.getD [] ++ [d])) rest2
    else shlexSplitAux ShMode.norm (some (cur.getD [] ++ [c])) rest
  | ShMode.single, cur, [] => flushTok cur []
  | ShMode.single, cur, c :: rest =>
    if c = '\x27' then shlexSplitAux ShMode.norm cur rest
    else shlexSplitAux ShMode.single (some (cur.getD [] ++ [c])) rest
  | ShMode.double, cur, [] => flushTok cur []
  | ShMode.double, cur, c :: rest =>
    if c = '"' then shlexSplitAux ShMode.norm cur rest
    else if c = '\\' then
      match rest with
      | [] => flushTok (some (cur.getD [] ++ ['\\'])) []
      | d :: rest2 =>
        if d = '"' || d = '\\' then
          shlexSplitAux ShMode.double (some (cur.getD [] ++ [d])) rest2
        else shlexSplitAux ShMode.double (some (cur.getD [] ++ ['\\', d])) rest2
    else shlexSplitAux ShMode.double (some (cur.getD [] ++ [c])) rest

/-- Python's `shlex.split` as used by `run` (line 23 of the source). -/
def shlexSplit (s : String) : List String :=
  shlexSplitAux ShMode.norm none s.data

/-- Command string built by `systemctl(*args)` (line 28 of the source):
`"systemctl --user" + " ".join(shlex.quote(a) for a in args)` — note the
source concatenates without a separating space. -/
def systemctl_cmdline (args : List String) : String :=
  "systemctl --user" ++ String.intercalate " " (args.map shlexQuote)

/-- Argument vector actually handed to `subprocess.run` for a `systemctl`
call: `shlex.split` applied to the command string built by `systemctl`. -/
def systemctl_argv (args : List String) : List String :=
  shlexSplit (systemctl_cmdline args)

/-- Command string built by `show_logs` (line 125 of the source):
`f"journalctl -u {shlex.quote(self.service)} -n 100 --no-pager --output=short"`. -/
def journalctl_cmdline (service : String) : String :=
  "journalctl -u " ++ shlexQuote service ++ " -n 100 --no-pager --output=short"

/-- Qt side effects performed by the tray methods, recorded explicitly.
External invocations are recorded at the call boundary: `systemctlCall sub
unit` for `systemctl(sub, unit)` and `runCall cmdline` for a direct `run`
call; `toggledSignal` records a checkbox signal emission that `blockSignals`
would suppress. -/
inductive Event where
  | systemctlCall (sub : String) (unit : String)
  | runCall (cmdline : String)
  | notifyMsg (title : String) (message : String)
  | setIcon (green : Bool)
  | setToolTip (text : String)
  | menuSetEnabled (item : String) (b : Bool)
  | setChecked (b : Bool)
  | toggledSignal (b : Bool)
  | showDialog (title : String) (text : String)
deriving Repr, DecidableEq

/-- Mutable state of the `ServiceTray` object that the claims are about:
the supervised unit name, the `_active` flag, the checkbox of the
"Enable on boot" action, the icon and tooltip, the enabled state of the
three menu actions, and whether signals of the checkbox are blocked. -/
structure TrayState where
  service : String
  active : Bool
  checked : Bool
  iconOn : Bool
  tooltip : String
  startItemOn : Bool
  stopItemOn : Bool
  restartItemOn : Bool
  signalsBlocked : Bool
deriving Repr, DecidableEq

/-- Qt's `setChecked` on a checkable action: it always records the new
checkbox value, and additionally emits the checkbox's changed signal unless
signals are blocked. -/
def qtSetChecked (blocked : Bool) (b : Bool) : List Event :=
  if blocked then [Event.setChecked b] else [Event.setChecked b, Event.toggledSignal b]

/-- `ServiceTray.refresh_status` (lines 83-105): query `is-active` and
`is-enabled`, classify each by exact match of the stripped one-line stdout
against "active" / "enabled", then update `_active`, icon, tooltip, the
Start/Stop/Restart menu items, and — with signals blocked — the enable
checkbox.  The two query results are passed in as the completed processes of
the two `systemctl` calls. -/
def refresh_status (s : TrayState) (activeP enabledP : CompletedProcess) :
    TrayState × List Event :=
  let newActive := pyStrip activeP.stdout == "active"
  let isEnabled := pyStrip enabledP.stdout == "enabled"
  let tip := if newActive then s.service ++ ": active" else s.service ++ ": inactive"
  let s1 : TrayState :=
    { s with active := newActive, iconOn := newActive, tooltip := tip,
             startItemOn := !newActive, stopItemOn := newActive, restartItemOn := true }
  let s2 : TrayState := { s1 with signalsBlocked := true }
  let checkedEvs := qtSetChecked s2.signalsBlocked isEnabled
  let s3 : TrayState := { s2 with checked := isEnabled }
  let s4 : TrayState := { s3 with signalsBlocked := false }
  (s4,
   [Event.systemctlCall "is-active" s.service,
    Event.systemctlCall "is-enabled" s.service,
    Event.setIcon newActive, Event.setToolTip tip,
    Event.menuSetEnabled "start" (!newActive),
    Event.menuSetEnabled "stop" newActive,
    Event.menuSetEnabled "restart" true] ++ checkedEvs)

/-- `ServiceTray.do_action` (lines 107-113): run `systemctl <action> <unit>`,
notify on a nonzero exit code (with the stripped stderr, or a fallback
message when it is empty), then unconditionally call `refresh_status`.
`proc` is the completed action process; `activeP`/`enabledP` are the results
of the two queries issued by the refresh. -/
def do_action (s : TrayState) (action : String) (proc : CompletedProcess)
    (activeP enabledP : CompletedProcess) : TrayState × List Event :=
  let notifyEvs :=
    if proc.returncode != 0 then
      [Event.notifyMsg "Error"
        (if pyStrip proc.stderr != "" then pyStrip proc.stderr
         else "Failed to " ++ action ++ " " ++ s.service)]
    else []
  let r := refresh_status s activeP enabledP
  (r.1, Event.systemctlCall action s.service :: (notifyEvs ++ r.2))

/-- `ServiceTray.toggle_enable` (lines 115-120): run `systemctl enable` or
`systemctl disable` according to the checkbox value the gesture produced;
only when the exit code is nonzero, notify and call `refresh_status` to
revert the checkbox to the actual state.  On success nothing further
happens. -/
def toggle_enable (s : TrayState) (checked : Bool) (proc : CompletedProcess)
    (activeP enabledP : CompletedProcess) : TrayState × List Event :=
  let sub := if checked then "enable" else "disable"
  let callEv := Event.systemctlCall sub s.service
  if proc.returncode != 0 then
    let nEv := Event.notifyMsg "Error"
      (if pyStrip proc.stderr != "" then pyStrip proc.stderr
       else "Failed to change enable state")
    let r := refresh_status s activeP enabledP
    (r.1, callEv :: nEv :: r.2)
  else (s, [callEv])

/-- Reasons a Qt tray icon can be activated; a plain left click is
`Trigger`. -/
inductive ActivationReason where
  | Trigger
  | Context
  | DoubleClick
  | MiddleClick
  | Unknown
deriving Repr, DecidableEq

/-- Toggle resolution of `on_activated` (lines 78-81): stop when the current
`_active` flag is set, start otherwise. -/
def toggleResolution (s : TrayState) : String :=
  if s.active then "stop" else "start"

/-- `ServiceTray.on_activated` (lines 74-81): a left click (`Trigger`)
performs `do_action` with the subcommand resolved from the current `_active`
flag; any other activation reason does nothing. -/
def on_activated (s : TrayState) (reason : ActivationReason)
    (proc activeP enabledP : CompletedProcess) : TrayState × List Event :=
  if reason = ActivationReason.Trigger then
    do_action s (toggleResolution s) proc activeP enabledP
  else (s, [])

/-- `ServiceTray.show_logs` (lines 122-138): run the `journalctl` command and
open a dialog whose text is the captured stdout when it is nonempty (Python
truthiness of the string) and the captured stderr otherwise.  The tray state
is not modified. -/
def show_logs (s : TrayState) (p : CompletedProcess) : List Event :=
  let text := if p.stdout != "" then p.stdout else p.stderr
  [Event.runCall (journalctl_cmdline s.service),
   Event.showDialog ("Logs: " ++ s.service ++ " (last 100)") text]

/-- Result of a single `subprocess.run` call at the spawn level: either a
completed process, or the exception `subprocess.run` raises when the
executable cannot be spawned at all. -/
inductive RunResult where
  | ok (p : CompletedProcess)
  | spawnFailure (msg : String)
deriving Repr, DecidableEq

/-- `refresh_status` at the spawn level: the source wraps neither `systemctl`
call in a try block, so a spawn failure of either query propagates as the
raised exception before any field of the tray state is assigned; only when
both spawns complete does the refresh of the state take place. -/
def refresh_statusE (s : TrayState) (aR eR : RunResult) :
    Except String (TrayState × List Event) :=
  match aR with
  | RunResult.spawnFailure m => Except.error m
  | RunResult.ok aP =>
    match eR with
    | RunResult.spawnFailure m => Except.error m
    | RunResult.ok eP => Except.ok (refresh_status s aP eP)

/-- Event classifier: an external `systemctl` invocation. -/
def isSystemctlCall : Event → Bool
  | Event.systemctlCall _ _ => true
  | _ => false

/-- Event classifier: the read-only `is-active` status query that starts a
poll. -/
def isPollQuery : Event → Bool
  | Event.systemctlCall sub _ => sub == "is-active"
  | _ => false

/-- Event classifier: a `systemctl` invocation carrying one of the five
control subcommands. -/
def isControlCall : Event → Bool
  | Event.systemctlCall sub _ =>
      sub == "start" || sub == "stop" || sub == "restart" ||
      sub == "enable" || sub == "disable"
  | _ => false

/-- Event classifier: a desktop failure notification (`notify`). -/
def isNotifyEvent : Event → Bool
  | Event.notifyMsg _ _ => true
  | _ => false

/-- Event classifier: a checkbox signal emission. -/
def isToggledSignal : Event → Bool
  | Event.toggledSignal _ => true
  | _ => false

/-- Event classifier: a presentation update (icon, tooltip, menu item
enabledness or checkbox value). -/
def isUiUpdate : Event → Bool
  | Event.setIcon _ => true
  | Event.setToolTip _ => true
  | Event.menuSetEnabled _ _ => true
  | Event.setChecked _ => true
  | _ => false

/-- A method execution triggers a fresh status poll exactly when its emitted
events contain the `is-active` query. -/
def triggersPoll (evs : List Event) : Bool :=
  evs.any isPollQuery

/-- Presentation updates among the emitted events. -/
def uiUpdates (evs : List Event) : List Event :=
  evs.filter isUiUpdate

/-- Text of the first dialog among the emitted events (empty when none). -/
def displayedText : List Event → String
  | [] => ""
  | Event.showDialog _ t :: _ => t
  | _ :: rest => displayedText rest

/-- Sample tray state used for concrete evaluations: the unit is shown
active and enabled. -/
def sampleState : TrayState :=
  { service := "my.service", active := true, checked := true, iconOn := true,
    tooltip := "my.service: active", startItemOn := false, stopItemOn := true,
    restartItemOn := true, signalsBlocked := false }

/-- A completed process with exit code 0 and no output. -/
def emptyProc : CompletedProcess := ⟨0, "", ""⟩

/-- A completed process with exit code 1 and an error message. -/
def failProc : CompletedProcess := ⟨1, "", "Unit busy\n"⟩

/-- Result of a successful `is-active` query on an active unit. -/
def activeOkProc : CompletedProcess := ⟨0, "active\n", ""⟩

/-- Result of a successful `is-enabled` query on an enabled unit. -/
def enabledOkProc : CompletedProcess := ⟨0, "enabled\n", ""⟩

/-- C1: the claim states that every subcommand invocation is built as the
argument vector ["systemctl", "--user", subcommand, unit].  The source
concatenates "systemctl --user" to the joined arguments without a separating
space, so the vector actually handed to the process spawner merges "--user"
with the subcommand into a single invalid token; the unit name does remain a
single verbatim token (shown here also for a name containing a space).  This
evaluates the constructed vector at the failing inputs. -/
theorem C1_argv_missing_space :
    systemctl_argv ["is-active", "my.service"] =
      ["systemctl", "--useris-active", "my.service"] ∧
    systemctl_argv ["start", "my.service"] =
      ["systemctl", "--userstart", "my.service"] ∧
    systemctl_argv ["start", "my unit"] =
      ["systemctl", "--userstart", "my unit"] ∧
    systemctl_argv ["is-active", "my.service"] ≠
      ["systemctl", "--user", "is-active", "my.service"] := by
  decide

/-- C2 counterexample: an enable action that completes with exit code 0 is a
completed control action after which no fresh poll is triggered — the events
of `toggle_enable` on success are exactly the single enable invocation, with
no `is-active` query and no state change. -/
theorem C2_counterexample :
    emptyProc.returncode = 0 ∧
    triggersPoll (toggle_enable sampleState true emptyProc activeOkProc enabledOkProc).2
      = false ∧
    (toggle_enable sampleState true emptyProc activeOkProc enabledOkProc).2 =
      [Event.systemctlCall "enable" "my.service"] ∧
    (toggle_enable sampleState true emptyProc activeOkProc enabledOkProc).1 = sampleState := by
  decide

/-- C2 amended: every start/stop/restart action triggers a fresh reconciling
poll regardless of exit code, and a failed enable/disable action triggers
one, but a successful enable/disable action triggers no poll. -/
theorem C2_amended_reconciling_poll (s : TrayState) (action : String) (checked : Bool)
    (proc activeP enabledP : CompletedProcess) :
    triggersPoll (do_action s action proc activeP enabledP).2 = true ∧
    (proc.returncode ≠ 0 →
      triggersPoll (toggle_enable s checked proc activeP enabledP).2 = true) ∧
    (proc.returncode = 0 →
      triggersPoll (toggle_enable s checked proc activeP enabledP).2 = false) := by
  refine ⟨?_, ?_, ?_⟩
  · simp [do_action, refresh_status, qtSetChecked, triggersPoll, isPollQuery]
  · intro h
    have hb : (proc.returncode != 0) = true := bne_iff_ne.mpr h
    simp [toggle_enable, hb, refresh_status, qtSetChecked, triggersPoll, isPollQuery]
  · intro h
    simp only [toggle_enable, h]
    cases checked <;> simp [triggersPoll, isPollQuery]

/-- C2 amended, witness: concrete instances — a start action with exit 1
polls, a failed enable polls, a successful enable does not. -/
theorem C2_amended_witness :
    triggersPoll (do_action sampleState "start" failProc activeOkProc enabledOkProc).2
      = true ∧
    triggersPoll (toggle_enable sampleState true failProc activeOkProc enabledOkProc).2
      = true ∧
    triggersPoll (toggle_enable sampleState true emptyProc activeOkProc enabledOkProc).2
      = false :=
  ⟨(C2_amended_reconciling_poll sampleState "start" true failProc activeOkProc
      enabledOkProc).1,
   (C2_amended_reconciling_poll sampleState "start" true failProc activeOkProc
      enabledOkProc).2.1 (by decide),
   (C2_amended_reconciling_poll sampleState "start" true emptyProc activeOkProc
      enabledOkProc).2.2 rfl⟩

/-- C3: a poll classifies the unit as active exactly when the is-active
query's one-line output (its stdout stripped of surrounding whitespace, as
the source reads the line) equals "active", and as enabled exactly when the
is-enabled query's one-line output equals "enabled"; the classification
depends on neither exit code nor stderr of either query, so a failing query
yields false for its axis and never prevents the snapshot from being
produced. -/
theorem C3_classification (s : TrayState) (activeP enabledP : CompletedProcess) :
    (refresh_status s activeP enabledP).1.active = (pyStrip activeP.stdout == "active") ∧
    (refresh_status s activeP enabledP).1.checked = (pyStrip enabledP.stdout == "enabled") ∧
    (∀ (rc1 rc2 : Int) (err1 err2 : String),
      refresh_status s ⟨rc1, activeP.stdout, err1⟩ ⟨rc2, enabledP.stdout, err2⟩ =
        refresh_status s activeP enabledP) :=
  ⟨rfl, rfl, fun _ _ _ _ => rfl⟩

/-- C4: a left-click toggle resolves to stop exactly when the current
`_active` flag is set and to start otherwise (first conjunct), and when the
click is handled after a completed poll, the flag consulted is the one that
poll computed from its is-active output, not a copy captured before the poll
(second conjunct). -/
theorem C4_toggle_resolution (s : TrayState)
    (proc activeP enabledP p2 a2 e2 : CompletedProcess) :
    ((on_activated s ActivationReason.Trigger proc activeP enabledP).2.head? =
      some (Event.systemctlCall (if s.active then "stop" else "start") s.service)) ∧
    ((on_activated (refresh_status s activeP enabledP).1 ActivationReason.Trigger
        p2 a2 e2).2.head? =
      some (Event.systemctlCall
        (if pyStrip activeP.stdout == "active" then "stop" else "start") s.service)) :=
  ⟨rfl, rfl⟩

/-- C5: whenever an enable or disable command exits nonzero, a fresh poll is
issued and the enable checkbox ends up holding the enabled value that poll
observed — never the optimistic toggled value. -/
theorem C5_enable_failure_reversion (s : TrayState) (checked : Bool)
    (proc activeP enabledP : CompletedProcess) (h : proc.returncode ≠ 0) :
    (toggle_enable s checked proc activeP enabledP).1.checked =
      (pyStrip enabledP.stdout == "enabled") ∧
    triggersPoll (toggle_enable s checked proc activeP enabledP).2 = true := by
  have hb : (proc.returncode != 0) = true := bne_iff_ne.mpr h
  refine ⟨?_, ?_⟩
  · simp [toggle_enable, hb, refresh_status]
  · simp [toggle_enable, hb, refresh_status, qtSetChecked, triggersPoll, isPollQuery]

/-- C5 witness: a failed enable (exit 1) on a concrete state reverts the
checkbox to the polled value and polls. -/
theorem C5_witness :
    failProc.returncode ≠ 0 ∧
    ((toggle_enable sampleState true failProc activeOkProc enabledOkProc).1.checked =
       (pyStrip enabledOkProc.stdout == "enabled") ∧
     triggersPoll (toggle_enable sampleState true failProc activeOkProc enabledOkProc).2
       = true) :=
  ⟨by decide,
   C5_enable_failure_reversion sampleState true failProc activeOkProc enabledOkProc
     (by decide)⟩

/-- C6: a start/stop/restart action raises a failure notification exactly
when the command's exit code is nonzero, a status poll always follows, and
the state after the action is the state the reconciling poll produced. -/
theorem C6_failure_notification_iff (s : TrayState) (action : String)
    (proc activeP enabledP : CompletedProcess) :
    ((do_action s action proc activeP enabledP).2.any isNotifyEvent =
      (proc.returncode != 0)) ∧
    triggersPoll (do_action s action proc activeP enabledP).2 = true ∧
    (do_action s action proc activeP enabledP).1 = (refresh_status s activeP enabledP).1 := by
  refine ⟨?_, ?_, rfl⟩
  · cases hb : (proc.returncode != 0) <;>
      simp [do_action, hb, refresh_status, qtSetChecked, isNotifyEvent]
  · simp [do_action, refresh_status, qtSetChecked, triggersPoll, isPollQuery]

/-- C7 counterexample: a poll observing the same (active, enabled) pair as
the current state still performs the presentation updates — the source
updates icon, tooltip, menu items and checkbox unconditionally on every
poll. -/
theorem C7_counterexample :
    (refresh_status sampleState activeOkProc enabledOkProc).1.active = sampleState.active ∧
    (refresh_status sampleState activeOkProc enabledOkProc).1.checked = sampleState.checked ∧
    uiUpdates (refresh_status sampleState activeOkProc enabledOkProc).2 ≠ [] := by
  decide

/-- C7 amended: on every successful poll the presentation updates (icon,
tooltip, the three menu items, checkbox) are applied unconditionally, whether
or not the observed pair differs from the previous snapshot; no
change-detection is performed. -/
theorem C7_amended_unconditional_updates (s : TrayState)
    (activeP enabledP : CompletedProcess) :
    uiUpdates (refresh_status s activeP enabledP).2 =
      [Event.setIcon (pyStrip activeP.stdout == "active"),
       Event.setToolTip (if pyStrip activeP.stdout == "active" then
         s.service ++ ": active" else s.service ++ ": inactive"),
       Event.menuSetEnabled "start" (!(pyStrip activeP.stdout == "active")),
       Event.menuSetEnabled "stop" (pyStrip activeP.stdout == "active"),
       Event.menuSetEnabled "restart" true,
       Event.setChecked (pyStrip enabledP.stdout == "enabled")] :=
  rfl

/-- C8 counterexample: a log query that completes with exit code 0 and empty
stdout but nonempty stderr hands the stderr text, not the empty string, to
the dialog — the source selects between stdout and stderr by string
truthiness and never consults the exit code. -/
theorem C8_counterexample :
    (CompletedProcess.mk 0 "" "journal warning").returncode = 0 ∧
    (CompletedProcess.mk 0 "" "journal warning").stdout = "" ∧
    displayedText (show_logs sampleState (CompletedProcess.mk 0 "" "journal warning")) =
      "journal warning" ∧
    displayedText (show_logs sampleState (CompletedProcess.mk 0 "" "journal warning")) ≠
      "" := by
  decide

/-- C8 amended: the log text handed to the dialog is the query's stdout when
nonempty and its stderr otherwise, regardless of exit code; in particular a
successful query with no output and no diagnostics yields the empty
string. -/
theorem C8_amended_log_text (s : TrayState) (p : CompletedProcess) :
    (p.stdout = "" ∧ p.stderr = "" → displayedText (show_logs s p) = "") ∧
    (p.stdout = "" → displayedText (show_logs s p) = p.stderr) ∧
    (p.stdout ≠ "" → displayedText (show_logs s p) = p.stdout) := by
  refine ⟨?_, ?_, ?_⟩
  · rintro ⟨h1, h2⟩
    simp [show_logs, displayedText, h1, h2]
  · intro h
    simp [show_logs, displayedText, h]
  · intro h
    have hb : (p.stdout != "") = true := bne_iff_ne.mpr h
    simp [show_logs, displayedText, hb]

/-- C8 amended, witness: concrete instances — no output and no diagnostics
gives the empty string, a failing query with empty stdout gives its stderr,
and a query with output gives its stdout. -/
theorem C8_amended_witness :
    displayedText (show_logs sampleState emptyProc) = "" ∧
    displayedText (show_logs sampleState failProc) = failProc.stderr ∧
    displayedText (show_logs sampleState activeOkProc) = activeOkProc.stdout :=
  ⟨(C8_amended_log_text sampleState emptyProc).1 ⟨rfl, rfl⟩,
   (C8_amended_log_text sampleState failProc).2.1 rfl,
   (C8_amended_log_text sampleState activeOkProc).2.2 (by decide)⟩

/-- C9 counterexample: when the first status query cannot be spawned at all,
the poll does not complete — the exception is the result, rather than a
normally produced snapshot. -/
theorem C9_counterexample :
    refresh_statusE sampleState
      (RunResult.spawnFailure "FileNotFoundError: systemctl")
      (RunResult.ok activeOkProc) =
    Except.error "FileNotFoundError: systemctl" :=
  rfl

/-- C9 amended: a spawn failure of either status query propagates out of the
poll routine as the raised exception before any tray field is assigned (the
caller's state is untouched because no new state is produced), and only when
both spawns complete does the poll produce the refreshed state. -/
theorem C9_amended_spawn_failure (s : TrayState) (m : String) (r : RunResult)
    (aP eP : CompletedProcess) :
    refresh_statusE s (RunResult.spawnFailure m) r = Except.error m ∧
    refresh_statusE s (RunResult.ok aP) (RunResult.spawnFailure m) = Except.error m ∧
    refresh_statusE s (RunResult.ok aP) (RunResult.ok eP) =
      Except.ok (refresh_status s aP eP) :=
  ⟨rfl, rfl, rfl⟩

/-- C10: a poll is strictly read-only with respect to the process manager:
its systemctl invocations are exactly the two status queries, it issues no
control subcommand, and because signals are blocked around the checkbox
update it emits no checkbox signal that could trigger an enable/disable. -/
theorem C10_poll_read_only (s : TrayState) (activeP enabledP : CompletedProcess) :
    (refresh_status s activeP enabledP).2.filter isSystemctlCall =
      [Event.systemctlCall "is-active" s.service,
       Event.systemctlCall "is-enabled" s.service] ∧
    (refresh_status s activeP enabledP).2.filter isControlCall = [] ∧
    (refresh_status s activeP enabledP).2.any isToggledSignal = false :=
  ⟨rfl, rfl, rfl⟩

end RpiTray
